import Mathlib

/-!
Verification of the drink-consumption simulation engine of this repository
(`simulation.py`: `seasonal_factor`, `calc_liters_by_category`,
`simulate_flow_based`) together with the share-sum guard of `app.py`.
Numeric semantics is modelled over the real numbers; the calendar
arithmetic performed by `datetime` / `pd.date_range` is modelled over `ℕ`
with the proleptic Gregorian calendar.
-/

namespace DrinkPredictor

/-- Gregorian leap-year test, as used by Python's `datetime` module. -/
def isLeap (y : ℕ) : Bool :=
  (y % 4 == 0 && y % 100 != 0) || (y % 400 == 0)

/-- Number of days in a month of the proleptic Gregorian calendar. -/
def daysInMonth (y m : ℕ) : ℕ :=
  if m = 2 then (if isLeap y then 29 else 28)
  else if m = 4 ∨ m = 6 ∨ m = 9 ∨ m = 11 then 30
  else 31

/-- Calendar date: year, month (1-12), day (1-based). -/
structure Date where
  year : ℕ
  month : ℕ
  day : ℕ
  deriving DecidableEq, Repr

/-- Total days in the months strictly before month `m` of year `y`. -/
def daysBeforeMonth (y : ℕ) (m : ℕ) : ℕ :=
  let L : ℕ := if isLeap y then 1 else 0
  match m with
  | 1 => 0
  | 2 => 31
  | 3 => 59 + L
  | 4 => 90 + L
  | 5 => 120 + L
  | 6 => 151 + L
  | 7 => 181 + L
  | 8 => 212 + L
  | 9 => 243 + L
  | 10 => 273 + L
  | 11 => 304 + L
  | 12 => 334 + L
  | _ => 0

/-- One-based ordinal day within the year, Python's `timetuple().tm_yday`. -/
def dayOfYear (d : Date) : ℕ := daysBeforeMonth d.year d.month + d.day

/-- Rata-die day number of a date, matching Python's `date.toordinal`
(so `toOrdinal ⟨1, 1, 1⟩ = 1`). -/
def toOrdinal (d : Date) : ℕ :=
  365 * (d.year - 1) + (d.year - 1) / 4 - (d.year - 1) / 100 + (d.year - 1) / 400
    + daysBeforeMonth d.year d.month + d.day

/-- Python's `date.weekday()`: 0 = Monday … 6 = Sunday. -/
def weekday (d : Date) : ℕ := (toOrdinal d + 6) % 7

/-- Successor calendar day. -/
def nextDate (d : Date) : Date :=
  if d.day < daysInMonth d.year d.month then ⟨d.year, d.month, d.day + 1⟩
  else if d.month < 12 then ⟨d.year, d.month + 1, 1⟩
  else ⟨d.year + 1, 1, 1⟩

/-- List of `n` consecutive calendar days starting at `d`. -/
def dateRangeAux : Date → ℕ → List Date
  | _, 0 => []
  | d, n + 1 => d :: dateRangeAux (nextDate d) n

/-- Number of days in the inclusive window June 1 of `year - 1` … June 1 of `year`. -/
def windowLength (year : ℕ) : ℕ :=
  toOrdinal ⟨year, 6, 1⟩ - toOrdinal ⟨year - 1, 6, 1⟩ + 1

/-- Embedding of `pd.date_range(datetime(year-1, 6, 1), datetime(year, 6, 1), freq='D')`. -/
def date_range (year : ℕ) : List Date :=
  dateRangeAux ⟨year - 1, 6, 1⟩ (windowLength year)

/-- Well-formed calendar date. -/
def validDate (d : Date) : Prop :=
  1 ≤ d.year ∧ 1 ≤ d.month ∧ d.month ≤ 12 ∧ 1 ≤ d.day ∧ d.day ≤ daysInMonth d.year d.month

/-- Per-drink configuration: the values of the `drink_types` mapping. -/
structure DrinkInfo where
  category : String
  avg_drinks : ℝ
  volume : ℝ
  share : ℝ

/-- The `drink_types` mapping, as an association list in insertion order. -/
abbrev DrinkTypes := List (String × DrinkInfo)

/-- Every category is one of the two bucket keys `light` / `heavy` (for any
other value the Python code raises `KeyError` on the bucket dictionary). -/
def validCats (dts : DrinkTypes) : Prop :=
  ∀ p ∈ dts, p.2.category = "light" ∨ p.2.category = "heavy"

instance (dts : DrinkTypes) : Decidable (validCats dts) :=
  List.decidableBAll _ dts

/-- One bucket update `liters_sum_by_category[info['category']] += liters`;
`none` models the `KeyError` raised for a category outside the two keys. -/
def addToCategory (acc : ℝ × ℝ) (cat : String) (liters : ℝ) : Option (ℝ × ℝ) :=
  if cat = "light" then some (acc.1 + liters, acc.2)
  else if cat = "heavy" then some (acc.1, acc.2 + liters)
  else none

/-- Loop of `calc_liters_by_category` over the drink mapping, with the
liters of one drink computed as `((daily_guests * share) * avg_drinks) * volume`. -/
def calcLitersAux (daily_guests : ℝ) : DrinkTypes → (ℝ × ℝ) → Option (ℝ × ℝ)
  | [], acc => some acc
  | (_, info) :: rest, acc =>
    match addToCategory acc info.category
        (daily_guests * info.share * info.avg_drinks * info.volume) with
    | none => none
    | some acc' => calcLitersAux daily_guests rest acc'

/-- Embedding of `calc_liters_by_category`: returns
`(light_liters, heavy_liters)`, or `none` on a `KeyError`. -/
def calc_liters_by_category (daily_guests : ℝ) (dts : DrinkTypes) : Option (ℝ × ℝ) :=
  calcLitersAux daily_guests dts (0, 0)

/-- The `DOW_FACTOR` table of `simulate_flow_based`, keyed by `weekday` (0 = Monday). -/
noncomputable def DOW_FACTOR (dow : ℕ) : ℝ :=
  match dow with
  | 0 => 0.17
  | 1 => 0.19
  | 2 => 0.15
  | 3 => 0.16
  | 4 => 0.22
  | 5 => 0.32
  | 6 => 0.18
  | _ => 0

/-- The `hourly_occupancy_percent` table, with the implicit default 0 of
`dict.get(hour, 0)`. -/
noncomputable def hourly_occupancy_percent (hour : ℕ) : ℝ :=
  match hour with
  | 0 => 45 | 1 => 30 | 2 => 15 | 3 => 0 | 4 => 0 | 5 => 0
  | 6 => 0 | 7 => 0 | 8 => 0 | 9 => 18 | 10 => 57 | 11 => 29
  | 12 => 34 | 13 => 41 | 14 => 45 | 15 => 47 | 16 => 48 | 17 => 52
  | 18 => 58 | 19 => 63 | 20 => 70 | 21 => 73 | 22 => 73 | 23 => 62
  | _ => 0

/-- Occupied-person count for one hour:
`capacity * (hourly_occupancy_percent.get(hour, 0) / 100.0) * seasonal_mult`. -/
noncomputable def occupiedAt (capacity seasonal_mult : ℝ) (hour : ℕ) : ℝ :=
  capacity * (hourly_occupancy_percent hour / 100) * seasonal_mult

/-- One iteration of the `for hour in range(24)` loop; the state is the pair
(`prev_occ`, accumulated `daily_guests`). -/
noncomputable def walkStep (capacity seasonal_mult : ℝ) (st : Option ℝ × ℝ) (hour : ℕ) :
    Option ℝ × ℝ :=
  let occ_people := occupiedAt capacity seasonal_mult hour
  match st.1 with
  | none => (some occ_people, st.2)
  | some prev_occ =>
    let change := occ_people - prev_occ
    (some occ_people, if change > 0 then st.2 + change else st.2)

/-- The positive-delta accumulation of `simulate_flow_based`: the value of
`daily_guests` after the hour loop and before the day-of-week scaling. -/
noncomputable def positiveDeltaSum (capacity seasonal_mult : ℝ) : ℝ :=
  ((List.range 24).foldl (walkStep capacity seasonal_mult) (none, 0)).2

/-- Embedding of `seasonal_factor` (`np.cos` modelled by `Real.cos`). -/
noncomputable def seasonal_factor (day_of_year min_mult max_mult : ℝ) : ℝ :=
  let amplitude := (max_mult - min_mult) / 2
  let midpoint := (max_mult + min_mult) / 2
  midpoint + amplitude * Real.cos (2 * Real.pi * (day_of_year - 180) / 365)

/-- Per-day guest estimate: positive-delta sum scaled by the `DOW_FACTOR` entry. -/
noncomputable def dailyGuests (capacity : ℝ) (sf : ℕ → ℝ) (d : Date) : ℝ :=
  positiveDeltaSum capacity (sf (dayOfYear d)) * DOW_FACTOR (weekday d)

/-- One output row of the simulation. -/
structure DailyRecord where
  date : Date
  guests : ℝ
  drinks : ℝ
  light_liters : ℝ
  heavy_liters : ℝ
  total_liters : ℝ

/-- The `total_drinks` generator-sum of `simulate_flow_based`. -/
noncomputable def total_drinks (daily_guests : ℝ) (dts : DrinkTypes) : ℝ :=
  (dts.map fun p => daily_guests * p.2.avg_drinks * p.2.share).sum

/-- Record built for one date; `none` propagates a `KeyError` of the demand model. -/
noncomputable def dayRecord (capacity : ℝ) (sf : ℕ → ℝ) (dts : DrinkTypes) (d : Date) :
    Option DailyRecord :=
  match calc_liters_by_category (dailyGuests capacity sf d) dts with
  | none => none
  | some (ll, hl) =>
    some ⟨d, dailyGuests capacity sf d, total_drinks (dailyGuests capacity sf d) dts,
      ll, hl, ll + hl⟩

/-- The per-date loop of `simulate_flow_based`, appending one record per date. -/
noncomputable def simRecords (capacity : ℝ) (sf : ℕ → ℝ) (dts : DrinkTypes) :
    List Date → Option (List DailyRecord)
  | [] => some []
  | d :: rest =>
    match dayRecord capacity sf dts d, simRecords capacity sf dts rest with
    | some r, some rs => some (r :: rs)
    | _, _ => none

/-- Embedding of `simulate_flow_based`; `some` is normal completion, `none`
an uncaught `KeyError` from an invalid drink category. -/
noncomputable def simulate_flow_based (capacity : ℝ) (year : ℕ) (dts : DrinkTypes) :
    Option (List DailyRecord) :=
  simRecords capacity (fun d => seasonal_factor (d : ℝ) 1 2) dts (date_range year)

/-- Total of the share column, `edited_df['share'].sum()` in `app.py`. -/
noncomputable def total_share (dts : DrinkTypes) : ℝ :=
  (dts.map fun p => p.2.share).sum

/-- The gate in `app.py`: the simulation is only invoked when the share total
is nonzero; otherwise the app reports an error and disables the run button. -/
def can_run (dts : DrinkTypes) : Prop := total_share dts ≠ 0

/-- Hour keys of `hourly_occupancy_percent` in the insertion order of the
source dictionary (hour 0 follows hour 23 there). -/
def tableHours : List ℕ :=
  [6, 7, 8, 9, 10, 11, 12, 13, 14, 15, 16, 17, 18, 19, 20, 21, 22, 23, 0, 1, 2, 3, 4, 5]

/-- Modelled from the spec: the table-walk semantics the spec describes, in
which hour 0 is treated as following hour 23 within one day's pass (so the
delta from hour 23 to hour 0 is computed) and the walk's first hour, having
no predecessor, contributes 0. -/
noncomputable def specWalkSum (capacity seasonal_mult : ℝ) : ℝ :=
  ((tableHours.zip tableHours.tail).map fun p =>
    max 0 (occupiedAt capacity seasonal_mult p.2 - occupiedAt capacity seasonal_mult p.1)).sum

/-- Light-bucket total in closed form. -/
noncomputable def lightSum (daily_guests : ℝ) (dts : DrinkTypes) : ℝ :=
  ((dts.filter fun p => p.2.category == "light").map
    fun p => daily_guests * p.2.share * p.2.avg_drinks * p.2.volume).sum

/-- Heavy-bucket total in closed form. -/
noncomputable def heavySum (daily_guests : ℝ) (dts : DrinkTypes) : ℝ :=
  ((dts.filter fun p => p.2.category == "heavy").map
    fun p => daily_guests * p.2.share * p.2.avg_drinks * p.2.volume).sum

/-- Closed form of the record emitted for one date. -/
noncomputable def recOf (capacity : ℝ) (sf : ℕ → ℝ) (dts : DrinkTypes) (d : Date) :
    DailyRecord :=
  ⟨d, dailyGuests capacity sf d,
    total_drinks (dailyGuests capacity sf d) dts,
    lightSum (dailyGuests capacity sf d) dts,
    heavySum (dailyGuests capacity sf d) dts,
    lightSum (dailyGuests capacity sf d) dts + heavySum (dailyGuests capacity sf d) dts⟩

/-- Every month has at least one day. -/
lemma daysInMonth_pos (y m : ℕ) : 1 ≤ daysInMonth y m := by
  unfold daysInMonth
  split_ifs <;> norm_num

/-- Unfolding lemma for `toOrdinal` on an explicit date. -/
lemma toOrdinal_mk (y m day : ℕ) :
    toOrdinal ⟨y, m, day⟩ =
      365 * (y - 1) + (y - 1) / 4 - (y - 1) / 100 + (y - 1) / 400
        + daysBeforeMonth y m + day := rfl

/-- Propositional form of the leap-year test. -/
lemma isLeap_iff (y : ℕ) : isLeap y = true ↔ (y % 4 = 0 ∧ y % 100 ≠ 0) ∨ y % 400 = 0 := by
  simp [isLeap]

/-- January has no preceding days. -/
lemma daysBeforeMonth_one (y : ℕ) : daysBeforeMonth y 1 = 0 := rfl

/-- Days before June: 151, plus one in a leap year. -/
lemma daysBeforeMonth_six (y : ℕ) :
    daysBeforeMonth y 6 = 151 + (if isLeap y then 1 else 0) := rfl

/-- Days before December: 334, plus one in a leap year. -/
lemma daysBeforeMonth_twelve (y : ℕ) :
    daysBeforeMonth y 12 = 334 + (if isLeap y then 1 else 0) := rfl

/-- Cumulative month lengths agree with the per-month table. -/
lemma daysBeforeMonth_succ (y m : ℕ) (h1 : 1 ≤ m) (h11 : m ≤ 11) :
    daysBeforeMonth y (m + 1) = daysBeforeMonth y m + daysInMonth y m := by
  interval_cases m <;>
    cases h : isLeap y <;>
      simp [daysBeforeMonth, daysInMonth, h]

set_option maxHeartbeats 1600000 in
/-- Rata-die year-prefix step: the day count before year `y + 1` exceeds the
day count before year `y` by 365, plus one in a leap year. -/
lemma rataDie_succ (y : ℕ) (hy : 1 ≤ y) :
    365 * y + y / 4 - y / 100 + y / 400
      = 365 * (y - 1) + (y - 1) / 4 - (y - 1) / 100 + (y - 1) / 400 + 365
        + (if isLeap y then 1 else 0) := by
  split_ifs with hL
  · rw [isLeap_iff] at hL
    omega
  · rw [isLeap_iff] at hL
    omega

/-- Calendar successor is again a well-formed date. -/
lemma validDate_nextDate (d : Date) (h : validDate d) : validDate (nextDate d) := by
  obtain ⟨hy, hm1, hm12, hd1, hdm⟩ := h
  unfold nextDate
  by_cases hlt : d.day < daysInMonth d.year d.month
  · simp only [hlt, if_true, validDate]
    exact ⟨hy, hm1, hm12, by omega, by omega⟩
  · by_cases hm : d.month < 12
    · simp only [hlt, if_false, hm, if_true, validDate]
      exact ⟨hy, by omega, by omega, le_refl 1, daysInMonth_pos _ _⟩
    · simp only [hlt, if_false, hm, validDate]
      exact ⟨by omega, le_refl 1, by norm_num, le_refl 1, daysInMonth_pos _ _⟩

/-- Stepping to the next calendar day increments the rata-die number by one. -/
lemma toOrdinal_nextDate (d : Date) (h : validDate d) :
    toOrdinal (nextDate d) = toOrdinal d + 1 := by
  obtain ⟨hy, hm1, hm12, hd1, hdm⟩ := h
  unfold nextDate
  by_cases hlt : d.day < daysInMonth d.year d.month
  · simp only [hlt, if_true, toOrdinal]
    omega
  · have hde : d.day = daysInMonth d.year d.month := by omega
    by_cases hm : d.month < 12
    · simp only [hlt, if_false, hm, if_true, toOrdinal]
      rw [daysBeforeMonth_succ _ _ hm1 (by omega)]
      omega
    · have hm' : d.month = 12 := by omega
      have hd31 : d.day = 31 := by
        rw [hde, hm']; simp [daysInMonth]
      rw [if_neg hlt, if_neg hm, toOrdinal_mk]
      simp only [toOrdinal, hm', hd31, daysBeforeMonth_one, daysBeforeMonth_twelve,
        Nat.add_sub_cancel]
      rw [rataDie_succ d.year hy]
      split_ifs <;> omega

/-- Length of a generated date range. -/
lemma dateRangeAux_length (n : ℕ) (d : Date) : (dateRangeAux d n).length = n := by
  induction n generalizing d with
  | zero => simp [dateRangeAux]
  | succ n ih => simp [dateRangeAux, ih]

/-- The `i`-th generated date sits `i` days after the start. -/
lemma dateRangeAux_get (n : ℕ) : ∀ (d : Date), validDate d →
    ∀ (i : ℕ) (hi : i < (dateRangeAux d n).length),
      toOrdinal ((dateRangeAux d n).get ⟨i, hi⟩) = toOrdinal d + i := by
  induction n with
  | zero => intro d _ i hi; simp [dateRangeAux] at hi
  | succ n ih =>
    intro d hd i hi
    cases i with
    | zero => simp [dateRangeAux]
    | succ i =>
      have hi' : i < (dateRangeAux (nextDate d) n).length := by
        simpa [dateRangeAux] using hi
      have := ih (nextDate d) (validDate_nextDate d hd) i hi'
      simp only [dateRangeAux, List.get_cons_succ]
      rw [this, toOrdinal_nextDate d hd]
      omega

/-- The inclusive June-to-June window has 366 days, or 367 when the ending
calendar year is a leap year (then the window contains February 29). -/
lemma windowLength_eq (year : ℕ) (h : 2 ≤ year) :
    windowLength year = if isLeap year then 367 else 366 := by
  unfold windowLength
  rw [toOrdinal_mk, toOrdinal_mk, daysBeforeMonth_six, daysBeforeMonth_six,
    rataDie_succ (year - 1) (by omega)]
  split_ifs <;> omega

/-- Adding a change only when it is positive is adding its positive part. -/
lemma ite_pos_add (g c : ℝ) : (if c > 0 then g + c else g) = g + max 0 c := by
  split_ifs with h
  · rw [max_eq_right h.le]
  · rw [max_eq_left (le_of_not_lt h), add_zero]

/-- Closed form of the hour loop: after hours `0 … n` the state holds the
last occupancy and the sum of the positive deltas so far. -/
lemma walk_fold (c s : ℝ) (n : ℕ) :
    (List.range (n + 1)).foldl (walkStep c s) (none, 0)
      = (some (occupiedAt c s n),
          ∑ h in Finset.Icc 1 n, max 0 (occupiedAt c s h - occupiedAt c s (h - 1))) := by
  induction n with
  | zero =>
    have h1 : Finset.Icc 1 0 = (∅ : Finset ℕ) := Finset.Icc_eq_empty (by norm_num)
    simp [List.range_succ, walkStep, h1]
  | succ n ih =>
    rw [List.range_succ, List.foldl_append, ih]
    simp only [List.foldl_cons, List.foldl_nil, walkStep]
    rw [Finset.sum_Icc_succ_top (by omega : 1 ≤ n + 1)]
    simp only [Nat.add_sub_cancel]
    rw [ite_pos_add]

/-- The hour loop computes the sum of the 23 clamped hour-to-hour deltas. -/
lemma positiveDeltaSum_eq (c s : ℝ) :
    positiveDeltaSum c s
      = ∑ h in Finset.Icc 1 23, max 0 (occupiedAt c s h - occupiedAt c s (h - 1)) := by
  unfold positiveDeltaSum
  rw [show (24 : ℕ) = 23 + 1 by norm_num, walk_fold]

/-- The positive-delta accumulation is never negative. -/
lemma positiveDeltaSum_nonneg (c s : ℝ) : 0 ≤ positiveDeltaSum c s := by
  rw [positiveDeltaSum_eq]
  exact Finset.sum_nonneg fun h _ => le_max_left _ _

/-- Every entry of the day-of-week table is non-negative. -/
lemma DOW_FACTOR_nonneg (d : ℕ) : 0 ≤ DOW_FACTOR d := by
  unfold DOW_FACTOR
  split <;> norm_num

/-- Accumulator form of the `calc_liters_by_category` loop. -/
lemma calcLitersAux_eq (g : ℝ) :
    ∀ (dts : DrinkTypes) (a b : ℝ), validCats dts →
      calcLitersAux g dts (a, b) = some (a + lightSum g dts, b + heavySum g dts) := by
  intro dts
  induction dts with
  | nil => intro a b _; simp [calcLitersAux, lightSum, heavySum]
  | cons p rest ih =>
    intro a b hv
    have hrest : validCats rest := fun q hq => hv q (List.mem_cons_of_mem _ hq)
    obtain ⟨nm, info⟩ := p
    have hcat : info.category = "light" ∨ info.category = "heavy" :=
      hv (nm, info) (List.mem_cons_self _ _)
    rcases hcat with hcat | hcat
    · have step : calcLitersAux g ((nm, info) :: rest) (a, b)
          = calcLitersAux g rest (a + g * info.share * info.avg_drinks * info.volume, b) := by
        simp [calcLitersAux, addToCategory, hcat]
      have hl : lightSum g ((nm, info) :: rest)
          = g * info.share * info.avg_drinks * info.volume + lightSum g rest := by
        simp [lightSum, List.filter_cons, hcat]
      have hh : heavySum g ((nm, info) :: rest) = heavySum g rest := by
        simp [heavySum, List.filter_cons, hcat]
      rw [step, ih _ _ hrest, hl, hh]
      simp only [Option.some.injEq, Prod.mk.injEq]
      exact ⟨by ring, trivial⟩
    · have step : calcLitersAux g ((nm, info) :: rest) (a, b)
          = calcLitersAux g rest (a, b + g * info.share * info.avg_drinks * info.volume) := by
        simp [calcLitersAux, addToCategory, hcat]
      have hl : lightSum g ((nm, info) :: rest) = lightSum g rest := by
        simp [lightSum, List.filter_cons, hcat]
      have hh : heavySum g ((nm, info) :: rest)
          = g * info.share * info.avg_drinks * info.volume + heavySum g rest := by
        simp [heavySum, List.filter_cons, hcat]
      rw [step, ih _ _ hrest, hl, hh]
      simp only [Option.some.injEq, Prod.mk.injEq]
      exact ⟨trivial, by ring⟩

/-- The demand model succeeds exactly with the two bucket sums whenever all
categories are valid. -/
lemma calc_liters_spec (g : ℝ) (dts : DrinkTypes) (hv : validCats dts) :
    calc_liters_by_category g dts = some (lightSum g dts, heavySum g dts) := by
  unfold calc_liters_by_category
  rw [calcLitersAux_eq g dts 0 0 hv]
  simp

/-- With valid categories, each day yields exactly the closed-form record. -/
lemma dayRecord_eq (c : ℝ) (sf : ℕ → ℝ) (dts : DrinkTypes) (hv : validCats dts) (d : Date) :
    dayRecord c sf dts d = some (recOf c sf dts d) := by
  unfold dayRecord recOf
  rw [calc_liters_spec (dailyGuests c sf d) dts hv]

/-- With valid categories, the per-date loop returns the mapped record list. -/
lemma simRecords_eq (c : ℝ) (sf : ℕ → ℝ) (dts : DrinkTypes) (hv : validCats dts) :
    ∀ dates : List Date, simRecords c sf dts dates = some (dates.map (recOf c sf dts)) := by
  intro dates
  induction dates with
  | nil => simp [simRecords]
  | cons d rest ih => simp [simRecords, dayRecord_eq c sf dts hv, ih]

/-- With valid categories, the simulation returns one closed-form record per
date of the window. -/
lemma simulate_eq (c : ℝ) (year : ℕ) (dts : DrinkTypes) (hv : validCats dts) :
    simulate_flow_based c year dts
      = some ((date_range year).map (recOf c (fun d => seasonal_factor (d : ℝ) 1 2) dts)) := by
  unfold simulate_flow_based
  exact simRecords_eq _ _ _ hv _

/-- Clamped occupancy deltas factor through the product `capacity * mult`. -/
lemma max_delta_factor (c s : ℝ) (h : 0 ≤ c * s) (a b : ℕ) :
    max 0 (occupiedAt c s b - occupiedAt c s a)
      = c * s * max 0 ((hourly_occupancy_percent b - hourly_occupancy_percent a) / 100) := by
  rw [mul_max_of_nonneg _ _ h, mul_zero]
  congr 1
  unfold occupiedAt
  ring

/-- Over the fixed table, the engine walk sums to `101 %` of `capacity * mult`
whenever that product is non-negative. -/
lemma positiveDeltaSum_factor (c s : ℝ) (h : 0 ≤ c * s) :
    positiveDeltaSum c s = c * s * (101 / 100) := by
  rw [positiveDeltaSum_eq]
  rw [Finset.sum_congr rfl fun hr _ => max_delta_factor c s h (hr - 1) hr, ← Finset.mul_sum]
  congr 1
  simp [Finset.sum_Icc_succ_top, Finset.Icc_self, Finset.sum_singleton]
  norm_num [hourly_occupancy_percent, max_def]

/-- Over the fixed table, the spec table-order walk also sums to `101 %` of
`capacity * mult` whenever that product is non-negative. -/
lemma specWalkSum_factor (c s : ℝ) (h : 0 ≤ c * s) :
    specWalkSum c s = c * s * (101 / 100) := by
  unfold specWalkSum tableHours
  simp only [List.tail_cons, List.zip_cons_cons, List.zip_nil_right, List.map_cons,
    List.map_nil, List.sum_cons, List.sum_nil, max_delta_factor c s h]
  norm_num [hourly_occupancy_percent, max_def]
  ring

/-- Concrete value of the engine walk at capacity 1 and multiplier `-1`. -/
lemma positiveDeltaSum_neg_example : positiveDeltaSum 1 (-1) = 84 / 100 := by
  rw [positiveDeltaSum_eq]
  simp [Finset.sum_Icc_succ_top, Finset.Icc_self, Finset.sum_singleton]
  norm_num [occupiedAt, hourly_occupancy_percent, max_def]

/-- Concrete value of the spec table-order walk at capacity 1 and multiplier `-1`. -/
lemma specWalkSum_neg_example : specWalkSum 1 (-1) = 101 / 100 := by
  unfold specWalkSum tableHours
  simp only [List.tail_cons, List.zip_cons_cons, List.zip_nil_right, List.map_cons,
    List.map_nil, List.sum_cons, List.sum_nil]
  norm_num [occupiedAt, hourly_occupancy_percent, max_def]

/-- The default seasonal factor always lies between its two multipliers. -/
lemma seasonal_factor_bounds (x : ℝ) :
    1 ≤ seasonal_factor x 1 2 ∧ seasonal_factor x 1 2 ≤ 2 := by
  simp only [seasonal_factor]
  have h1 := Real.neg_one_le_cos (2 * Real.pi * (x - 180) / 365)
  have h2 := Real.cos_le_one (2 * Real.pi * (x - 180) / 365)
  constructor <;> nlinarith

/-- Winter value of the default seasonal factor at day 0. -/
lemma seasonal_factor_day0 : |seasonal_factor 0 1 2 - 1| ≤ 1 / 1000 := by
  simp only [seasonal_factor]
  have harg : 2 * Real.pi * ((0 : ℝ) - 180) / 365 = -(Real.pi - 5 * Real.pi / 365) := by ring
  rw [harg, Real.cos_neg, Real.cos_pi_sub]
  have ht0 : 0 < 5 * Real.pi / 365 := by positivity
  have ht : 5 * Real.pi / 365 < 5 * 3.15 / 365 := by
    have := Real.pi_lt_d2
    nlinarith
  have hcos_le : Real.cos (5 * Real.pi / 365) ≤ 1 := Real.cos_le_one _
  have hcos_ge : 1 - (5 * Real.pi / 365) ^ 2 / 2 ≤ Real.cos (5 * Real.pi / 365) :=
    Real.one_sub_sq_div_two_le_cos
  rw [abs_le]
  constructor <;> nlinarith

/-- Winter value of the default seasonal factor at day 365. -/
lemma seasonal_factor_day365 : |seasonal_factor 365 1 2 - 1| ≤ 1 / 1000 := by
  simp only [seasonal_factor]
  have harg : 2 * Real.pi * ((365 : ℝ) - 180) / 365 = Real.pi - -(5 * Real.pi / 365) := by ring
  rw [harg, Real.cos_pi_sub, Real.cos_neg]
  have ht0 : 0 < 5 * Real.pi / 365 := by positivity
  have ht : 5 * Real.pi / 365 < 5 * 3.15 / 365 := by
    have := Real.pi_lt_d2
    nlinarith
  have hcos_le : Real.cos (5 * Real.pi / 365) ≤ 1 := Real.cos_le_one _
  have hcos_ge : 1 - (5 * Real.pi / 365) ^ 2 / 2 ≤ Real.cos (5 * Real.pi / 365) :=
    Real.one_sub_sq_div_two_le_cos
  rw [abs_le]
  constructor <;> nlinarith

/-- Peak value of the default seasonal factor at day 180. -/
lemma seasonal_factor_day180 : seasonal_factor 180 1 2 = 2 := by
  simp only [seasonal_factor]
  have harg : 2 * Real.pi * ((180 : ℝ) - 180) / 365 = 0 := by ring
  rw [harg, Real.cos_zero]
  norm_num

/-- Every record produced by the loop is the record of some date. -/
lemma simRecords_mem (c : ℝ) (sf : ℕ → ℝ) (dts : DrinkTypes) :
    ∀ (dates : List Date) (recs : List DailyRecord),
      simRecords c sf dts dates = some recs →
      ∀ r ∈ recs, ∃ d : Date, dayRecord c sf dts d = some r := by
  intro dates
  induction dates with
  | nil =>
    intro recs h r hr
    simp only [simRecords, Option.some.injEq] at h
    subst h
    simp at hr
  | cons d rest ih =>
    intro recs h r hr
    simp only [simRecords] at h
    rcases hd : dayRecord c sf dts d with _ | r0 <;> rw [hd] at h
    · simp at h
    · rcases hrest : simRecords c sf dts rest with _ | rs <;> rw [hrest] at h
      · simp at h
      · simp only [Option.some.injEq] at h
        subst h
        rcases List.mem_cons.mp hr with rfl | hr'
        · exact ⟨d, hd⟩
        · exact ih rs hrest r hr'

/-- Structure of any record emitted for one date. -/
lemma dayRecord_inv (c : ℝ) (sf : ℕ → ℝ) (dts : DrinkTypes) (d : Date) (r : DailyRecord)
    (h : dayRecord c sf dts d = some r) :
    ∃ ll hl : ℝ,
      calc_liters_by_category (dailyGuests c sf d) dts = some (ll, hl) ∧
      r = ⟨d, dailyGuests c sf d, total_drinks (dailyGuests c sf d) dts, ll, hl, ll + hl⟩ := by
  unfold dayRecord at h
  rcases hc : calc_liters_by_category (dailyGuests c sf d) dts with _ | ⟨ll, hl⟩ <;>
    rw [hc] at h
  · simp at h
  · simp only [Option.some.injEq] at h
    exact ⟨ll, hl, rfl, h.symm⟩

/-- The daily guest estimate is non-negative for every capacity and multiplier. -/
lemma dailyGuests_nonneg (c : ℝ) (sf : ℕ → ℝ) (d : Date) : 0 ≤ dailyGuests c sf d :=
  mul_nonneg (positiveDeltaSum_nonneg _ _) (DOW_FACTOR_nonneg _)

/-- The drink-count sum is non-negative for non-negative inputs. -/
lemma total_drinks_nonneg (g : ℝ) (dts : DrinkTypes) (hg : 0 ≤ g)
    (h : ∀ p ∈ dts, 0 ≤ p.2.avg_drinks ∧ 0 ≤ p.2.share) : 0 ≤ total_drinks g dts := by
  apply List.sum_nonneg
  intro x hx
  obtain ⟨p, hp, rfl⟩ := List.mem_map.mp hx
  exact mul_nonneg (mul_nonneg hg (h p hp).1) (h p hp).2

/-- The bucket loop keeps both accumulators non-negative. -/
lemma calcLitersAux_nonneg (g : ℝ) (hg : 0 ≤ g) :
    ∀ (dts : DrinkTypes),
      (∀ p ∈ dts, 0 ≤ p.2.avg_drinks ∧ 0 ≤ p.2.volume ∧ 0 ≤ p.2.share) →
      ∀ (a b ll hl : ℝ), 0 ≤ a → 0 ≤ b →
        calcLitersAux g dts (a, b) = some (ll, hl) → 0 ≤ ll ∧ 0 ≤ hl := by
  intro dts
  induction dts with
  | nil =>
    intro _ a b ll hl ha hb h
    simp only [calcLitersAux, Option.some.injEq, Prod.mk.injEq] at h
    obtain ⟨h1, h2⟩ := h
    exact ⟨h1 ▸ ha, h2 ▸ hb⟩
  | cons p rest ih =>
    intro hdts a b ll hl ha hb h
    obtain ⟨nm, info⟩ := p
    have hrest : ∀ q ∈ rest, 0 ≤ q.2.avg_drinks ∧ 0 ≤ q.2.volume ∧ 0 ≤ q.2.share :=
      fun q hq => hdts q (List.mem_cons_of_mem _ hq)
    have hinfo := hdts (nm, info) (List.mem_cons_self _ _)
    have hterm : 0 ≤ g * info.share * info.avg_drinks * info.volume :=
      mul_nonneg (mul_nonneg (mul_nonneg hg hinfo.2.2) hinfo.1) hinfo.2.1
    by_cases hlc : info.category = "light"
    · rw [show calcLitersAux g ((nm, info) :: rest) (a, b)
          = calcLitersAux g rest (a + g * info.share * info.avg_drinks * info.volume, b) from by
        simp [calcLitersAux, addToCategory, hlc]] at h
      exact ih hrest _ _ _ _ (add_nonneg ha hterm) hb h
    · by_cases hhc : info.category = "heavy"
      · rw [show calcLitersAux g ((nm, info) :: rest) (a, b)
            = calcLitersAux g rest (a, b + g * info.share * info.avg_drinks * info.volume) from by
          simp [calcLitersAux, addToCategory, hlc, hhc]] at h
        exact ih hrest _ _ _ _ ha (add_nonneg hb hterm) h
      · rw [show calcLitersAux g ((nm, info) :: rest) (a, b) = none from by
          simp [calcLitersAux, addToCategory, hlc, hhc]] at h
        simp at h

/-- At capacity zero the hour walk accumulates nothing. -/
lemma positiveDeltaSum_zero_capacity (s : ℝ) : positiveDeltaSum 0 s = 0 := by
  rw [positiveDeltaSum_eq]
  apply Finset.sum_eq_zero
  intro h _
  simp [occupiedAt]

/-- A zero guest count yields zero light liters. -/
lemma lightSum_zero (dts : DrinkTypes) : lightSum 0 dts = 0 := by
  apply List.sum_eq_zero
  intro x hx
  obtain ⟨p, _, rfl⟩ := List.mem_map.mp hx
  ring

/-- A zero guest count yields zero heavy liters. -/
lemma heavySum_zero (dts : DrinkTypes) : heavySum 0 dts = 0 := by
  apply List.sum_eq_zero
  intro x hx
  obtain ⟨p, _, rfl⟩ := List.mem_map.mp hx
  ring

/-- The window always contains at least one day. -/
lemma windowLength_pos (year : ℕ) : 1 ≤ windowLength year := by
  unfold windowLength
  omega

/-- The start date of the window is well formed. -/
lemma validDate_start (year : ℕ) (h : 2 ≤ year) : validDate ⟨year - 1, 6, 1⟩ := by
  unfold validDate
  dsimp only
  refine ⟨by omega, by norm_num, by norm_num, by norm_num, by norm_num [daysInMonth]⟩

/-- C1: for every record of the simulation window, the guests value equals
the `DOW_FACTOR` entry of the record's weekday times the sum over the hour
walk 0 … 23 of the clamped deltas `max 0 (occ h - occ (h-1))` (the first hour
of the walk has no predecessor and contributes 0, so the sum runs over
h = 1 … 23), where `occ h = capacity × (percent h / 100) × seasonal_factor
(day_of_year)` over the fixed hourly table. -/
theorem C1_guests_formula (capacity : ℝ) (year : ℕ) (dts : DrinkTypes)
    (recs : List DailyRecord) (hsim : simulate_flow_based capacity year dts = some recs) :
    ∀ r ∈ recs,
      r.guests = DOW_FACTOR (weekday r.date)
        * ∑ h in Finset.Icc 1 23,
            max 0 (occupiedAt capacity (seasonal_factor (dayOfYear r.date : ℝ) 1 2) h
              - occupiedAt capacity (seasonal_factor (dayOfYear r.date : ℝ) 1 2) (h - 1)) := by
  intro r hr
  unfold simulate_flow_based at hsim
  obtain ⟨d, hd⟩ := simRecords_mem capacity _ dts (date_range year) recs hsim r hr
  obtain ⟨ll, hl, _, rfl⟩ := dayRecord_inv _ _ _ _ _ hd
  dsimp only
  unfold dailyGuests
  rw [positiveDeltaSum_eq]
  exact mul_comm _ _

/-- C1 witness: a concrete run on which the formula holds for every record. -/
theorem C1_guests_formula_witness :
    ∃ recs : List DailyRecord,
      simulate_flow_based 50 2025 [("beer", ⟨"light", 3, 0.5, 1⟩)] = some recs ∧
      ∀ r ∈ recs,
        r.guests = DOW_FACTOR (weekday r.date)
          * ∑ h in Finset.Icc 1 23,
              max 0 (occupiedAt 50 (seasonal_factor (dayOfYear r.date : ℝ) 1 2) h
                - occupiedAt 50 (seasonal_factor (dayOfYear r.date : ℝ) 1 2) (h - 1)) := by
  have hsim := simulate_eq 50 2025 [("beer", ⟨"light", 3, 0.5, 1⟩)] (by decide)
  exact ⟨_, hsim, C1_guests_formula 50 2025 _ _ hsim⟩

/-- C2: `seasonal_factor` is the cosine oscillation
`(max+min)/2 + ((max−min)/2)·cos(2π(day−180)/365)` for every integer day with
no clamping; with the defaults it equals 2 exactly at day 180 (hence within
any tolerance), is within `1/1000` of 1 at days 0 and 365, and lies in
`[1, 2]` at every integer day. -/
theorem C2_seasonal_factor_spec :
    (∀ (d : ℤ) (mn mx : ℝ),
        seasonal_factor (d : ℝ) mn mx
          = (mx + mn) / 2 + (mx - mn) / 2 * Real.cos (2 * Real.pi * ((d : ℝ) - 180) / 365))
    ∧ seasonal_factor 180 1 2 = 2
    ∧ |seasonal_factor 0 1 2 - 1| ≤ 1 / 1000
    ∧ |seasonal_factor 365 1 2 - 1| ≤ 1 / 1000
    ∧ ∀ d : ℤ, 1 ≤ seasonal_factor (d : ℝ) 1 2 ∧ seasonal_factor (d : ℝ) 1 2 ≤ 2 := by
  refine ⟨?_, seasonal_factor_day180, seasonal_factor_day0, seasonal_factor_day365, ?_⟩
  · intro d mn mx
    simp only [seasonal_factor]
  · intro d
    exact seasonal_factor_bounds _

/-- C3: with every category in `{light, heavy}`, the demand model returns the
light and heavy totals as the sums of `guests × share × avg_drinks × volume`
over the drinks of each category. -/
theorem C3_calc_liters (daily_guests : ℝ) (dts : DrinkTypes) (hv : validCats dts) :
    calc_liters_by_category daily_guests dts
      = some (lightSum daily_guests dts, heavySum daily_guests dts) :=
  calc_liters_spec daily_guests dts hv

/-- C3 witness: a concrete two-drink mapping, with the bucket sums evaluated. -/
theorem C3_calc_liters_witness :
    validCats [("beer", ⟨"light", 2, 0.5, 0.6⟩), ("rum", ⟨"heavy", 1, 0.1, 0.4⟩)] ∧
    calc_liters_by_category 10 [("beer", ⟨"light", 2, 0.5, 0.6⟩), ("rum", ⟨"heavy", 1, 0.1, 0.4⟩)]
      = some (lightSum 10 [("beer", ⟨"light", 2, 0.5, 0.6⟩), ("rum", ⟨"heavy", 1, 0.1, 0.4⟩)],
          heavySum 10 [("beer", ⟨"light", 2, 0.5, 0.6⟩), ("rum", ⟨"heavy", 1, 0.1, 0.4⟩)]) ∧
    lightSum 10 [("beer", ⟨"light", 2, 0.5, 0.6⟩), ("rum", ⟨"heavy", 1, 0.1, 0.4⟩)] = 6 ∧
    heavySum 10 [("beer", ⟨"light", 2, 0.5, 0.6⟩), ("rum", ⟨"heavy", 1, 0.1, 0.4⟩)] = 2 / 5 := by
  have e1 : (("light" : String) == "light") = true := by decide
  have e2 : (("heavy" : String) == "light") = false := by decide
  have e3 : (("light" : String) == "heavy") = false := by decide
  have e4 : (("heavy" : String) == "heavy") = true := by decide
  refine ⟨by decide, C3_calc_liters 10 _ (by decide), ?_, ?_⟩
  · norm_num [lightSum, List.filter, e1, e2]
  · norm_num [heavySum, List.filter, e3, e4]

/-- C5 counterexample: at capacity 1 (which is ≥ 0) and seasonal multiplier
−1 the engine walk (hour order 0 … 23) sums to 0.84 while the spec
table-order walk (hour 0 following hour 23, delta 23 → 0 included) sums to
1.01, so the two walks are not extensionally equal for every multiplier. -/
theorem C5_walk_equiv_counterexample :
    (0 : ℝ) ≤ 1 ∧ positiveDeltaSum 1 (-1) ≠ specWalkSum 1 (-1) := by
  refine ⟨by norm_num, ?_⟩
  rw [positiveDeltaSum_neg_example, specWalkSum_neg_example]
  norm_num

/-- C5 amended: for every capacity ≥ 0 and every non-negative seasonal
multiplier — in particular every value the default `seasonal_factor`
produces — the engine's positive-delta walk and the spec's table-order walk
are extensionally equal over the fixed hourly occupancy table (both equal
`capacity × mult × 1.01`). -/
theorem C5_walk_equiv (c s : ℝ) (hc : 0 ≤ c) (hs : 0 ≤ s) :
    positiveDeltaSum c s = specWalkSum c s := by
  rw [positiveDeltaSum_factor c s (mul_nonneg hc hs),
    specWalkSum_factor c s (mul_nonneg hc hs)]

/-- C5 witness: the two walks agree at capacity 2 and multiplier 3/2. -/
theorem C5_walk_equiv_witness :
    (0 : ℝ) ≤ 2 ∧ (0 : ℝ) ≤ 3 / 2 ∧ positiveDeltaSum 2 (3 / 2) = specWalkSum 2 (3 / 2) :=
  ⟨by norm_num, by norm_num, C5_walk_equiv 2 (3 / 2) (by norm_num) (by norm_num)⟩

/-- C4: for positive capacity, a year whose predecessor is representable, and
a non-empty valid drink mapping, the simulation returns one record per
calendar day of the inclusive window June 1 (year−1) … June 1 (year), in
chronological order (consecutive rata-die numbers starting at the window's
first day and ending at its last), with 366 or 367 records. -/
theorem C4_window (capacity : ℝ) (year : ℕ) (dts : DrinkTypes)
    (hcap : 0 < capacity) (hyear : 2 ≤ year) (hne : dts ≠ []) (hv : validCats dts) :
    ∃ recs : List DailyRecord,
      simulate_flow_based capacity year dts = some recs ∧
      recs.map (fun r => r.date) = date_range year ∧
      recs.length = windowLength year ∧
      (recs.length = 366 ∨ recs.length = 367) ∧
      (∀ (i : ℕ) (hi : i < recs.length),
        toOrdinal ((recs.get ⟨i, hi⟩).date) = toOrdinal ⟨year - 1, 6, 1⟩ + i) ∧
      (∀ h0 : 0 < recs.length, (recs.get ⟨0, h0⟩).date = ⟨year - 1, 6, 1⟩) ∧
      (∀ hpos : 0 < recs.length,
        toOrdinal ((recs.get ⟨recs.length - 1, by omega⟩).date) = toOrdinal ⟨year, 6, 1⟩) := by
  refine ⟨(date_range year).map (recOf capacity (fun d => seasonal_factor (d : ℝ) 1 2) dts),
    simulate_eq capacity year dts hv, ?_, ?_, ?_, ?_, ?_, ?_⟩
  · rw [List.map_map]
    have : ((fun r : DailyRecord => r.date) ∘ recOf capacity (fun d => seasonal_factor (d : ℝ) 1 2) dts)
        = id := funext fun d => rfl
    rw [this, List.map_id]
  · rw [List.length_map, date_range, dateRangeAux_length]
  · rw [List.length_map, date_range, dateRangeAux_length, windowLength_eq year hyear]
    by_cases hL : isLeap year = true
    · rw [if_pos hL]; right; rfl
    · rw [if_neg hL]; left; rfl
  · intro i hi
    have hi' : i < (date_range year).length := by simpa using hi
    have h1 : (((date_range year).map (recOf capacity (fun d => seasonal_factor (d : ℝ) 1 2) dts)).get
          ⟨i, hi⟩)
        = recOf capacity (fun d => seasonal_factor (d : ℝ) 1 2) dts
            ((date_range year).get ⟨i, hi'⟩) := by
      simp
    rw [h1]
    exact dateRangeAux_get (windowLength year) ⟨year - 1, 6, 1⟩ (validDate_start year hyear) i hi'
  · intro h0
    have h0' : 0 < (date_range year).length := by simpa using h0
    have h1 : (((date_range year).map (recOf capacity (fun d => seasonal_factor (d : ℝ) 1 2) dts)).get
          ⟨0, h0⟩)
        = recOf capacity (fun d => seasonal_factor (d : ℝ) 1 2) dts
            ((date_range year).get ⟨0, h0'⟩) := by
      simp
    obtain ⟨n, hn⟩ : ∃ n, windowLength year = n + 1 :=
      ⟨windowLength year - 1, by have := windowLength_pos year; omega⟩
    have hd : date_range year
        = (⟨year - 1, 6, 1⟩ : Date) :: dateRangeAux (nextDate ⟨year - 1, 6, 1⟩) n := by
      rw [date_range, hn]
      rfl
    have h2 : (date_range year).get ⟨0, h0'⟩ = ⟨year - 1, 6, 1⟩ := by
      simp [hd]
    rw [h1, h2]
    rfl
  · intro hpos
    have hlen : ((date_range year).map
          (recOf capacity (fun d => seasonal_factor (d : ℝ) 1 2) dts)).length
        = windowLength year := by
      rw [List.length_map, date_range, dateRangeAux_length]
    have hi : ((date_range year).map
          (recOf capacity (fun d => seasonal_factor (d : ℝ) 1 2) dts)).length - 1
        < ((date_range year).map
          (recOf capacity (fun d => seasonal_factor (d : ℝ) 1 2) dts)).length := by
      omega
    have hi' : ((date_range year).map
          (recOf capacity (fun d => seasonal_factor (d : ℝ) 1 2) dts)).length - 1
        < (date_range year).length := by
      simpa using hi
    have h1 : (((date_range year).map (recOf capacity (fun d => seasonal_factor (d : ℝ) 1 2) dts)).get
          ⟨((date_range year).map
            (recOf capacity (fun d => seasonal_factor (d : ℝ) 1 2) dts)).length - 1, hi⟩)
        = recOf capacity (fun d => seasonal_factor (d : ℝ) 1 2) dts
            ((date_range year).get ⟨((date_range year).map
              (recOf capacity (fun d => seasonal_factor (d : ℝ) 1 2) dts)).length - 1, hi'⟩) := by
      simp
    rw [h1]
    have h2 := dateRangeAux_get (windowLength year) ⟨year - 1, 6, 1⟩
      (validDate_start year hyear)
      (((date_range year).map
        (recOf capacity (fun d => seasonal_factor (d : ℝ) 1 2) dts)).length - 1) hi'
    have harith : toOrdinal ⟨year - 1, 6, 1⟩ + (windowLength year - 1)
        = toOrdinal ⟨year, 6, 1⟩ := by
      have hw := windowLength_eq year hyear
      unfold windowLength at hw ⊢
      split_ifs at hw <;> omega
    have h3 : toOrdinal ⟨year - 1, 6, 1⟩
        + (((date_range year).map
            (recOf capacity (fun d => seasonal_factor (d : ℝ) 1 2) dts)).length - 1)
        = toOrdinal ⟨year, 6, 1⟩ := by
      rw [hlen]
      exact harith
    exact h2.trans h3

/-- C4 witness: the concrete run over the 2025 window. -/
theorem C4_window_witness :
    (0 : ℝ) < 100 ∧ 2 ≤ 2025 ∧
    ([("beer", (⟨"light", 3, 0.5, 1⟩ : DrinkInfo))] : DrinkTypes) ≠ [] ∧
    validCats [("beer", ⟨"light", 3, 0.5, 1⟩)] ∧
    ∃ recs : List DailyRecord,
      simulate_flow_based 100 2025 [("beer", ⟨"light", 3, 0.5, 1⟩)] = some recs ∧
      recs.map (fun r => r.date) = date_range 2025 ∧
      recs.length = windowLength 2025 ∧
      (recs.length = 366 ∨ recs.length = 367) ∧
      (∀ (i : ℕ) (hi : i < recs.length),
        toOrdinal ((recs.get ⟨i, hi⟩).date) = toOrdinal ⟨2024, 6, 1⟩ + i) ∧
      (∀ h0 : 0 < recs.length, (recs.get ⟨0, h0⟩).date = ⟨2024, 6, 1⟩) ∧
      (∀ hpos : 0 < recs.length,
        toOrdinal ((recs.get ⟨recs.length - 1, by omega⟩).date) = toOrdinal ⟨2025, 6, 1⟩) :=
  ⟨by norm_num, by norm_num, by simp, by decide,
    C4_window 100 2025 [("beer", ⟨"light", 3, 0.5, 1⟩)] (by norm_num) (by norm_num)
      (by simp) (by decide)⟩

/-- C6 counterexample: with the single drink `beer` at share 0 — so every
share is 0 — `simulate_flow_based` completes normally (`some`) and produces
the full 366-record window, instead of raising a configuration error before
producing any record. -/
theorem C6_share_zero_counterexample :
    ∃ recs : List DailyRecord,
      simulate_flow_based 100 2025 [("beer", ⟨"light", 3, 0.5, 0⟩)] = some recs ∧
      recs.length = 366 := by
  refine ⟨_, simulate_eq 100 2025 [("beer", ⟨"light", 3, 0.5, 0⟩)] (by decide), ?_⟩
  rw [List.length_map, date_range, dateRangeAux_length]
  decide

/-- C6 amended: the engine performs no share validation — for a mapping in
which every share is 0 it returns the full window, every record carrying
zero drinks and zero liters — while the zero-total-share guard lives in the
caller `app.py`, whose gate `can_run` fails exactly then (the app reports the
error and never invokes the engine). -/
theorem C6_share_zero_amended (dts : DrinkTypes) (hz : ∀ p ∈ dts, p.2.share = 0) :
    ¬ can_run dts ∧
    ∀ (capacity : ℝ) (year : ℕ), validCats dts →
      ∃ recs : List DailyRecord,
        simulate_flow_based capacity year dts = some recs ∧
        recs.length = windowLength year ∧
        ∀ r ∈ recs,
          r.drinks = 0 ∧ r.light_liters = 0 ∧ r.heavy_liters = 0 ∧ r.total_liters = 0 := by
  constructor
  · intro hcr
    apply hcr
    apply List.sum_eq_zero
    intro x hx
    obtain ⟨p, hp, rfl⟩ := List.mem_map.mp hx
    exact hz p hp
  · intro capacity year hv
    refine ⟨_, simulate_eq capacity year dts hv, ?_, ?_⟩
    · rw [List.length_map, date_range, dateRangeAux_length]
    · intro r hr
      obtain ⟨d, _, rfl⟩ := List.mem_map.mp hr
      have hdrinks : total_drinks (dailyGuests capacity (fun d => seasonal_factor (d : ℝ) 1 2) d)
          dts = 0 := by
        apply List.sum_eq_zero
        intro x hx
        obtain ⟨p, hp, rfl⟩ := List.mem_map.mp hx
        rw [hz p hp, mul_zero]
      have hlight : lightSum (dailyGuests capacity (fun d => seasonal_factor (d : ℝ) 1 2) d)
          dts = 0 := by
        apply List.sum_eq_zero
        intro x hx
        obtain ⟨p, hp, rfl⟩ := List.mem_map.mp hx
        rw [hz p (List.mem_of_mem_filter hp)]
        ring
      have hheavy : heavySum (dailyGuests capacity (fun d => seasonal_factor (d : ℝ) 1 2) d)
          dts = 0 := by
        apply List.sum_eq_zero
        intro x hx
        obtain ⟨p, hp, rfl⟩ := List.mem_map.mp hx
        rw [hz p (List.mem_of_mem_filter hp)]
        ring
      exact ⟨hdrinks, hlight, hheavy, by rw [show (recOf capacity _ dts d).total_liters
        = lightSum (dailyGuests capacity (fun d => seasonal_factor (d : ℝ) 1 2) d) dts
          + heavySum (dailyGuests capacity (fun d => seasonal_factor (d : ℝ) 1 2) d) dts
        from rfl, hlight, hheavy, add_zero]⟩

/-- C6 witness: the amended statement at a concrete all-zero-share mapping. -/
theorem C6_share_zero_amended_witness :
    ¬ can_run [("beer", ⟨"light", 3, 0.5, 0⟩)] ∧
    ∃ recs : List DailyRecord,
      simulate_flow_based 100 2025 [("beer", ⟨"light", 3, 0.5, 0⟩)] = some recs ∧
      recs.length = windowLength 2025 ∧
      ∀ r ∈ recs,
        r.drinks = 0 ∧ r.light_liters = 0 ∧ r.heavy_liters = 0 ∧ r.total_liters = 0 := by
  have hz : ∀ p ∈ ([("beer", (⟨"light", 3, 0.5, 0⟩ : DrinkInfo))] : DrinkTypes),
      p.2.share = 0 := by
    intro p hp
    simp only [List.mem_singleton] at hp
    subst hp
    rfl
  have h := C6_share_zero_amended [("beer", ⟨"light", 3, 0.5, 0⟩)] hz
  exact ⟨h.1, h.2 100 2025 (by decide)⟩

/-- C7 counterexample: with capacity −5 (≤ 0) and a drink whose `avg_drinks`
and `volume` are both negative, `simulate_flow_based` still completes
normally and returns a full 366-record result instead of raising an input
range error before the per-day loop. -/
theorem C7_range_counterexample :
    ∃ recs : List DailyRecord,
      simulate_flow_based (-5) 2025 [("vodka", ⟨"heavy", -1, -2, 1⟩)] = some recs ∧
      recs.length = 366 := by
  refine ⟨_, simulate_eq (-5) 2025 [("vodka", ⟨"heavy", -1, -2, 1⟩)] (by decide), ?_⟩
  rw [List.length_map, date_range, dateRangeAux_length]
  decide

/-- C7 amended: the engine performs no input-range validation — for any
capacity ≤ 0 and any drink parameters (negative `avg_drinks` or `volume`
included) it returns the full window of records rather than raising; the UI
merely restricts its capacity input field to ≥ 1. -/
theorem C7_range_amended (capacity : ℝ) (year : ℕ) (dts : DrinkTypes)
    (hcap : capacity ≤ 0) (hv : validCats dts) :
    ∃ recs : List DailyRecord,
      simulate_flow_based capacity year dts = some recs ∧
      recs.length = windowLength year := by
  refine ⟨_, simulate_eq capacity year dts hv, ?_⟩
  rw [List.length_map, date_range, dateRangeAux_length]

/-- C7 witness: the amended statement at capacity −3 with negative drink
parameters. -/
theorem C7_range_amended_witness :
    (-3 : ℝ) ≤ 0 ∧ validCats [("vodka", ⟨"heavy", -1, -2, 1⟩)] ∧
    ∃ recs : List DailyRecord,
      simulate_flow_based (-3) 2024 [("vodka", ⟨"heavy", -1, -2, 1⟩)] = some recs ∧
      recs.length = windowLength 2024 :=
  ⟨by norm_num, by decide,
    C7_range_amended (-3) 2024 [("vodka", ⟨"heavy", -1, -2, 1⟩)] (by norm_num) (by decide)⟩

/-- C8: with capacity 0, year 2025 and the single light drink `beer`
(3 drinks, 0.5 L, share 1), the simulation completes normally with a full
366-day window in which every record has zero guests and zero total liters. -/
theorem C8_zero_capacity :
    ∃ recs : List DailyRecord,
      simulate_flow_based 0 2025 [("beer", ⟨"light", 3, 0.5, 1⟩)] = some recs ∧
      recs.length = 366 ∧
      ∀ r ∈ recs, r.guests = 0 ∧ r.total_liters = 0 := by
  refine ⟨_, simulate_eq 0 2025 [("beer", ⟨"light", 3, 0.5, 1⟩)] (by decide), ?_, ?_⟩
  · rw [List.length_map, date_range, dateRangeAux_length]
    decide
  · intro r hr
    obtain ⟨d, _, rfl⟩ := List.mem_map.mp hr
    have hg : dailyGuests 0 (fun d => seasonal_factor (d : ℝ) 1 2) d = 0 := by
      unfold dailyGuests
      rw [positiveDeltaSum_zero_capacity, zero_mul]
    constructor
    · show dailyGuests 0 (fun d => seasonal_factor (d : ℝ) 1 2) d = 0
      exact hg
    · show lightSum (dailyGuests 0 (fun d => seasonal_factor (d : ℝ) 1 2) d) _
          + heavySum (dailyGuests 0 (fun d => seasonal_factor (d : ℝ) 1 2) d) _ = 0
      rw [hg, lightSum_zero, heavySum_zero, add_zero]

/-- C9: whenever capacity ≥ 0, all `avg_drinks` and `volume` values are ≥ 0
and every share lies in [0, 1], every record the simulation returns has
non-negative guests, drinks, light, heavy and total liters (negative daily
guests are impossible: deltas are clamped before summing and the multipliers
are non-negative). -/
theorem C9_nonneg (capacity : ℝ) (year : ℕ) (dts : DrinkTypes) (recs : List DailyRecord)
    (hcap : 0 ≤ capacity)
    (hd : ∀ p ∈ dts, 0 ≤ p.2.avg_drinks ∧ 0 ≤ p.2.volume ∧ 0 ≤ p.2.share ∧ p.2.share ≤ 1)
    (hsim : simulate_flow_based capacity year dts = some recs) :
    ∀ r ∈ recs, 0 ≤ r.guests ∧ 0 ≤ r.drinks ∧ 0 ≤ r.light_liters ∧ 0 ≤ r.heavy_liters ∧
      0 ≤ r.total_liters := by
  intro r hr
  unfold simulate_flow_based at hsim
  obtain ⟨d, hdrec⟩ := simRecords_mem capacity _ dts (date_range year) recs hsim r hr
  obtain ⟨ll, hl, hcalc, rfl⟩ := dayRecord_inv _ _ _ _ _ hdrec
  have hg : 0 ≤ dailyGuests capacity (fun d => seasonal_factor (d : ℝ) 1 2) d :=
    dailyGuests_nonneg _ _ _
  have hllhl : 0 ≤ ll ∧ 0 ≤ hl := by
    unfold calc_liters_by_category at hcalc
    exact calcLitersAux_nonneg _ hg dts
      (fun p hp => ⟨(hd p hp).1, (hd p hp).2.1, (hd p hp).2.2.1⟩)
      0 0 ll hl le_rfl le_rfl hcalc
  refine ⟨hg, ?_, hllhl.1, hllhl.2, add_nonneg hllhl.1 hllhl.2⟩
  exact total_drinks_nonneg _ dts hg fun p hp => ⟨(hd p hp).1, (hd p hp).2.2.1⟩

/-- C9 witness: a concrete in-range run in which the theorem applies. -/
theorem C9_nonneg_witness :
    ∃ recs : List DailyRecord,
      simulate_flow_based 100 2025 [("beer", ⟨"light", 2.5, 0.5, 1⟩)] = some recs ∧
      ∀ r ∈ recs, 0 ≤ r.guests ∧ 0 ≤ r.drinks ∧ 0 ≤ r.light_liters ∧ 0 ≤ r.heavy_liters ∧
        0 ≤ r.total_liters := by
  have hsim := simulate_eq 100 2025 [("beer", ⟨"light", 2.5, 0.5, 1⟩)] (by decide)
  refine ⟨_, hsim, C9_nonneg 100 2025 _ _ (by norm_num) ?_ hsim⟩
  intro p hp
  simp only [List.mem_singleton] at hp
  subst hp
  refine ⟨by norm_num, by norm_num, by norm_num, by norm_num⟩

/-- C10: the date and guests columns do not depend on the drink mapping —
two runs with the same capacity and year and any two valid drink mappings
return sequences of equal length whose records agree on date and guests at
every index. -/
theorem C10_guest_independence (capacity : ℝ) (year : ℕ) (d1 d2 : DrinkTypes)
    (h1 : validCats d1) (h2 : validCats d2) :
    ∃ recs1 recs2 : List DailyRecord,
      simulate_flow_based capacity year d1 = some recs1 ∧
      simulate_flow_based capacity year d2 = some recs2 ∧
      recs1.length = recs2.length ∧
      ∀ (i : ℕ) (hi1 : i < recs1.length) (hi2 : i < recs2.length),
        (recs1.get ⟨i, hi1⟩).date = (recs2.get ⟨i, hi2⟩).date ∧
        (recs1.get ⟨i, hi1⟩).guests = (recs2.get ⟨i, hi2⟩).guests := by
  refine ⟨_, _, simulate_eq capacity year d1 h1, simulate_eq capacity year d2 h2,
    by rw [List.length_map, List.length_map], ?_⟩
  intro i hi1 hi2
  have hi : i < (date_range year).length := by simpa using hi1
  have e1 : (((date_range year).map (recOf capacity (fun d => seasonal_factor (d : ℝ) 1 2) d1)).get
        ⟨i, hi1⟩)
      = recOf capacity (fun d => seasonal_factor (d : ℝ) 1 2) d1
          ((date_range year).get ⟨i, hi⟩) := by
    simp
  have e2 : (((date_range year).map (recOf capacity (fun d => seasonal_factor (d : ℝ) 1 2) d2)).get
        ⟨i, hi2⟩)
      = recOf capacity (fun d => seasonal_factor (d : ℝ) 1 2) d2
          ((date_range year).get ⟨i, hi⟩) := by
    simp
  rw [e1, e2]
  exact ⟨rfl, rfl⟩

/-- C10 witness: a light-only and a heavy-only mapping give the same dates
and guests. -/
theorem C10_guest_independence_witness :
    ∃ recs1 recs2 : List DailyRecord,
      simulate_flow_based 100 2025 [("beer", ⟨"light", 2, 0.5, 1⟩)] = some recs1 ∧
      simulate_flow_based 100 2025 [("cocktail", ⟨"heavy", 1, 0.2, 1⟩)] = some recs2 ∧
      recs1.length = recs2.length ∧
      ∀ (i : ℕ) (hi1 : i < recs1.length) (hi2 : i < recs2.length),
        (recs1.get ⟨i, hi1⟩).date = (recs2.get ⟨i, hi2⟩).date ∧
        (recs1.get ⟨i, hi1⟩).guests = (recs2.get ⟨i, hi2⟩).guests :=
  C10_guest_independence 100 2025 [("beer", ⟨"light", 2, 0.5, 1⟩)]
    [("cocktail", ⟨"heavy", 1, 0.2, 1⟩)] (by decide) (by decide)

end DrinkPredictor
